import Mathlib

/-!
Verification of the HTML-to-image conversion service (src/server.js).

The POST /convert handler is embedded shallowly: JSON transport values are
`JVal`, JavaScript integer coercion is `jsParseInt` (which can yield NaN),
the puppeteer browser is an oracle `EngineBehavior` describing how each
engine call would behave, and the handler `handleConvert` returns the HTTP
response together with the trace of rendering-engine interactions it
performed, in order.
-/

/-- A JSON transport value for an option field: number (restricted to
integers, floats do not occur in the requests under study), string,
boolean, or null. Absence of a field is `Option.none` at the use site. -/
inductive JVal where
  | num (n : Int)
  | str (s : String)
  | bool (b : Bool)
  | null
deriving DecidableEq

/-- Result of JavaScript integer coercion: either an integer or NaN. -/
inductive JsNum where
  | nan
  | int (n : Int)
deriving DecidableEq

/-- A thrown JavaScript error: its `name` (checked by the handler to detect
puppeteer TimeoutError) and its `message`. -/
structure JsError where
  name : String
  message : String
deriving DecidableEq

/-- The leading decimal digits of a character list. -/
def leadingDigits (cs : List Char) : List Char :=
  cs.takeWhile (fun c => c.isDigit)

/-- Numeric value of a list of decimal digits. -/
def digitsToNat (cs : List Char) : Nat :=
  cs.foldl (fun a c => a * 10 + (c.toNat - 48)) 0

/-- JavaScript parseInt on a string: skip leading whitespace, accept one
optional sign, then read leading decimal digits; NaN when none follow. -/
def parseIntStr (s : String) : JsNum :=
  match s.toList.dropWhile (fun c => c.isWhitespace) with
  | '-' :: rest =>
      let ds := leadingDigits rest
      if ds.isEmpty then JsNum.nan else JsNum.int (-(digitsToNat ds : Int))
  | '+' :: rest =>
      let ds := leadingDigits rest
      if ds.isEmpty then JsNum.nan else JsNum.int (digitsToNat ds)
  | cs =>
      let ds := leadingDigits cs
      if ds.isEmpty then JsNum.nan else JsNum.int (digitsToNat ds)

/-- JavaScript parseInt applied to a transport value: numbers are stringified
and reparsed (the identity on integers), strings are parsed, booleans and
null stringify to digit-free text and give NaN. -/
def jsParseInt : JVal → JsNum
  | JVal.num n => JsNum.int n
  | JVal.str s => parseIntStr s
  | JVal.bool _ => JsNum.nan
  | JVal.null => JsNum.nan

/-- JavaScript template-literal coercion of a value to a string, as in the
filename template on line 155 of server.js. -/
def jvalTemplate : JVal → String
  | JVal.num n => toString n
  | JVal.str s => s
  | JVal.bool b => if b then "true" else "false"
  | JVal.null => "null"

/-- The body of a POST /convert request after JSON parsing: the html field
(absent, or a string, possibly empty) and the five option fields, each
either absent or a transport value. -/
structure ConvertRequest where
  html : Option String
  width : Option JVal
  height : Option JVal
  fullPage : Option JVal
  quality : Option JVal
  type : Option JVal
deriving DecidableEq

/-- JavaScript falsiness of the html field, as tested by `if (!html)` on
line 95: true when the field is absent or the empty string. -/
def htmlFalsy : Option String → Bool
  | none => true
  | some s => s = ""

/-- JavaScript typeof of the html field, reported in the 400 body
(line 98): "undefined" when absent, "string" otherwise. -/
def typeofHtml : Option String → String
  | none => "undefined"
  | some _ => "string"

/-- The merged per-request configuration (line 111), fields in the order of
`defaultOptions` on lines 103-109. -/
structure RenderConfig where
  width : JVal
  height : JVal
  fullPage : JVal
  quality : JVal
  type : JVal
deriving DecidableEq

/-- Object spread `{ ...defaultOptions, ...options }` (line 111): each field
takes the caller value when present, the documented default otherwise. -/
def mergedConfig (req : ConvertRequest) : RenderConfig :=
  { width := req.width.getD (JVal.num 1920)
    height := req.height.getD (JVal.num 1080)
    fullPage := req.fullPage.getD (JVal.bool true)
    quality := req.quality.getD (JVal.num 100)
    type := req.type.getD (JVal.str "png") }

/-- The check `['png','jpeg'].includes(config.type)` on line 114: Array
includes compares with strict equality, so only those two exact strings
pass. -/
def includesPngJpeg (v : JVal) : Bool :=
  v = JVal.str "png" || v = JVal.str "jpeg"

/-- Oracle describing how the rendering engine would answer each call of one
pipeline invocation: which calls throw (and with what error), how long the
content load takes in milliseconds, and the bytes a successful capture
yields. -/
structure EngineBehavior where
  newPageError : Option JsError
  setViewportError : Option JsError
  loadDuration : Nat
  loadError : Option JsError
  waitError : Option JsError
  screenshotError : Option JsError
  screenshotBytes : List Nat
deriving DecidableEq

/-- The puppeteer TimeoutError raised when a page.setContent call exceeds its
timeout option. -/
def timeoutError : JsError :=
  { name := "TimeoutError", message := "Navigation timeout exceeded" }

/-- Outcome of `page.setContent(html, {waitUntil, timeout})` (lines 131-134):
a TimeoutError when the load outlasts the timeout option, otherwise
whatever non-timeout load failure the engine produces, if any. -/
def setContentOutcome (timeout : Nat) (b : EngineBehavior) : Option JsError :=
  if b.loadDuration > timeout then some timeoutError else b.loadError

/-- The TypeError thrown when `browser.newPage()` is evaluated while the
global `browser` is undefined (launch failed, not completed, or torn
down). -/
def typeErrorNewPage : JsError :=
  { name := "TypeError", message := "Cannot read properties of undefined (reading newPage)" }

/-- One observable rendering-engine interaction of a pipeline invocation.
`newPageAttempt` records that control reached `browser.newPage()` on
line 121; `newPageOk` records that a surface (page) was actually
created. -/
inductive Ev where
  | newPageAttempt
  | newPageOk
  | setViewport (width height : JsNum)
  | setContent (html : String) (timeout : Nat)
  | waitForTimeout (ms : Nat)
  | screenshot (imgType : JVal) (fullPage : JVal) (quality : Option JsNum)
  | pageClose
deriving DecidableEq

/-- An HTTP response body: a JSON error object `{error, received?, message?}`
or raw image bytes. -/
inductive Body where
  | json (error : String) (received : Option String) (message : Option String)
  | bytes (data : List Nat)
deriving DecidableEq

/-- An HTTP response: status plus the headers set by the handler and the
body. Header fields are none when the handler does not set them. -/
structure Response where
  status : Nat
  contentType : Option String
  contentDisposition : Option String
  contentLength : Option Nat
  body : Body
deriving DecidableEq

/-- Response produced by the catch block on lines 171-185: 408 with the
timeout body when the error is a TimeoutError, otherwise 500 with the
generic internal-error body carrying the error message. -/
def catchResponse (e : JsError) : Response :=
  if e.name = "TimeoutError" then
    { status := 408, contentType := none, contentDisposition := none,
      contentLength := none,
      body := Body.json "Request timeout. HTML content took too long to load." none none }
  else
    { status := 500, contentType := none, contentDisposition := none,
      contentLength := none,
      body := Body.json "Internal server error during conversion" none (some e.message) }

/-- The inner try block (lines 123-165) run on a freshly created page:
viewport, content load with 30000 ms timeout, 1000 ms settling wait,
screenshot with quality only for jpeg, then the 200 response. Returns the
success response or the thrown error, with the trace of engine calls
reached. -/
def innerPipeline (b : EngineBehavior) (cfg : RenderConfig) (html : String) :
    Except JsError Response × List Ev :=
  let w := jsParseInt cfg.width
  let h := jsParseInt cfg.height
  let ev1 := [Ev.setViewport w h]
  match b.setViewportError with
  | some e => (Except.error e, ev1)
  | none =>
    let ev2 := ev1 ++ [Ev.setContent html 30000]
    match setContentOutcome 30000 b with
    | some e => (Except.error e, ev2)
    | none =>
      let ev3 := ev2 ++ [Ev.waitForTimeout 1000]
      match b.waitError with
      | some e => (Except.error e, ev3)
      | none =>
        let quality :=
          if cfg.type = JVal.str "jpeg" then some (jsParseInt cfg.quality) else none
        let ev4 := ev3 ++ [Ev.screenshot cfg.type cfg.fullPage quality]
        match b.screenshotError with
        | some e => (Except.error e, ev4)
        | none =>
          let shot := b.screenshotBytes
          let mimeType := if cfg.type = JVal.str "png" then "image/png" else "image/jpeg"
          let filename := "converted." ++ jvalTemplate cfg.type
          (Except.ok
            { status := 200,
              contentType := some mimeType,
              contentDisposition := some ("attachment; filename=\"" ++ filename ++ "\""),
              contentLength := some shot.length,
              body := Body.bytes shot }, ev4)

/-- The POST /convert handler (lines 91-186). `browser` is the global
engine handle: none when launch failed, has not completed, or the engine
was shut down. Returns the HTTP response and the ordered trace of
rendering-engine interactions. -/
def handleConvert (browser : Option EngineBehavior) (req : ConvertRequest) :
    Response × List Ev :=
  if htmlFalsy req.html then
    ({ status := 400, contentType := none, contentDisposition := none,
       contentLength := none,
       body := Body.json "HTML content is required" (some (typeofHtml req.html)) none }, [])
  else
    let config := mergedConfig req
    if !includesPngJpeg config.type then
      ({ status := 400, contentType := none, contentDisposition := none,
         contentLength := none,
         body := Body.json "Invalid image type. Use \"png\" or \"jpeg\"" none none }, [])
    else
      match browser with
      | none =>
          (catchResponse typeErrorNewPage, [Ev.newPageAttempt])
      | some b =>
        match b.newPageError with
        | some e => (catchResponse e, [Ev.newPageAttempt])
        | none =>
          let r := innerPipeline b config (req.html.getD "")
          let trace := Ev.newPageAttempt :: Ev.newPageOk :: (r.2 ++ [Ev.pageClose])
          match r.1 with
          | Except.ok resp => (resp, trace)
          | Except.error e => (catchResponse e, trace)

/-- Number of events of a trace satisfying a predicate. -/
def countEv (t : List Ev) (p : Ev → Bool) : Nat :=
  (t.filter p).length

/-- Recognizer for the surface-creation event. -/
def isNewPageOk : Ev → Bool
  | Ev.newPageOk => true
  | _ => false

/-- Recognizer for the surface-destruction event. -/
def isPageClose : Ev → Bool
  | Ev.pageClose => true
  | _ => false

/-- Recognizer for the attempted-surface-creation event. -/
def isNewPageAttempt : Ev → Bool
  | Ev.newPageAttempt => true
  | _ => false

/-- Whether the second character list is an initial segment of the first. -/
def startsWithL : List Char → List Char → Bool
  | _, [] => true
  | [], _ :: _ => false
  | c :: cs, p :: ps => c = p && startsWithL cs ps

/-- Whether the second character list occurs contiguously inside the
first. -/
def containsSub : List Char → List Char → Bool
  | [], pat => pat.isEmpty
  | c :: cs, pat => startsWithL (c :: cs) pat || containsSub cs pat

/-- Whether a string occurs as a substring of another. -/
def strContains (s pat : String) : Bool :=
  containsSub s.toList pat.toList

/-- Surface lifecycle invariant of a trace: at most one surface created,
closed as many times as created, and when one was created the last engine
interaction of the invocation is its destruction. -/
def surfaceInvariant (t : List Ev) : Bool :=
  decide (countEv t isNewPageOk ≤ 1) &&
  decide (countEv t isPageClose = countEv t isNewPageOk) &&
  (decide (countEv t isNewPageOk = 0) || decide (t.getLast? = some Ev.pageClose))

/-- Per-request rule for capture options: a screenshot event carries the
parseInt of the merged quality exactly when its type is jpeg, and no
quality otherwise. Non-screenshot events satisfy it vacuously. -/
def qualityRule (req : ConvertRequest) : Ev → Bool
  | Ev.screenshot t _ q =>
      if t = JVal.str "jpeg" then
        decide (q = some (jsParseInt (req.quality.getD (JVal.num 100))))
      else
        decide (q = none)
  | _ => true

/-- A request with the round-trip example markup and no options. -/
def reqDefault : ConvertRequest :=
  { html := some "<html><body><h1>Hello World</h1></body></html>",
    width := none, height := none, fullPage := none, quality := none, type := none }

/-- An engine that answers every call without error: the load settles
immediately and the capture yields four bytes (a PNG signature prefix). -/
def benign : EngineBehavior :=
  { newPageError := none, setViewportError := none, loadDuration := 0,
    loadError := none, waitError := none, screenshotError := none,
    screenshotBytes := [137, 80, 78, 71] }

/-- A request with no html field at all. -/
def reqNoHtml : ConvertRequest :=
  { html := none, width := none, height := none, fullPage := none,
    quality := none, type := none }

/-- A request asking for the unsupported type gif, other fields valid. -/
def reqGif : ConvertRequest :=
  { html := some "<h1>hi</h1>", width := none, height := none,
    fullPage := none, quality := none, type := some (JVal.str "gif") }

/-- A request whose width is the non-numeric string abc. -/
def reqNanWidth : ConvertRequest :=
  { html := some "<h1>x</h1>", width := some (JVal.str "abc"), height := none,
    fullPage := none, quality := none, type := none }

/-- An engine whose content load takes 30001 ms, one past the 30000 ms
timeout option. -/
def slowLoad : EngineBehavior :=
  { benign with loadDuration := 30001 }

/-- A jpeg request carrying the out-of-range quality 9999. -/
def reqJpegQ : ConvertRequest :=
  { html := some "<h1>q</h1>", width := none, height := none, fullPage := none,
    quality := some (JVal.num 9999), type := some (JVal.str "jpeg") }

/-- The catch block never produces a 400: its two branches are 408 and
500. -/
theorem catchResponse_status (e : JsError) :
    (catchResponse e).status = 408 ∨ (catchResponse e).status = 500 := by
  unfold catchResponse
  split <;> simp

/-- C5: a request whose markup content is absent or empty is answered with
status 400, a body naming the received type of the content field, and an
empty engine trace: no surface is created and no engine interaction
occurs. -/
theorem missing_html_rejected_no_surface (browser : Option EngineBehavior)
    (req : ConvertRequest) (h : htmlFalsy req.html = true) :
    handleConvert browser req =
      ({ status := 400, contentType := none, contentDisposition := none,
         contentLength := none,
         body := Body.json "HTML content is required" (some (typeofHtml req.html)) none },
       []) := by
  unfold handleConvert
  simp [h]

/-- Witness for C5 at the concrete request with no html field. -/
theorem missing_html_rejected_no_surface_witness :
    handleConvert (some benign) reqNoHtml =
      ({ status := 400, contentType := none, contentDisposition := none,
         contentLength := none,
         body := Body.json "HTML content is required" (some "undefined") none },
       []) :=
  missing_html_rejected_no_surface (some benign) reqNoHtml (by decide)

/-- C3 counterexample: for the gif request the status is 400 and no surface
is created, but the error body is the fixed message listing the allowed
values, which does not contain the received value gif anywhere — the body
does not name the invalid type value that was received. -/
theorem gif_error_body_omits_received_type :
    (handleConvert (some benign) reqGif).1.status = 400 ∧
    (handleConvert (some benign) reqGif).1.body =
      Body.json "Invalid image type. Use \"png\" or \"jpeg\"" none none ∧
    strContains "Invalid image type. Use \"png\" or \"jpeg\"" "gif" = false ∧
    (handleConvert (some benign) reqGif).2 = [] := by
  refine ⟨rfl, rfl, ?_, rfl⟩
  decide

/-- C3 (amended): a request whose merged type is any value other than the
exact strings png or jpeg is answered 400 with the fixed error message
naming the allowed values (but not the received one), and the engine trace
is empty: no surface creation is attempted. -/
theorem invalid_type_fixed_message_no_surface (browser : Option EngineBehavior)
    (req : ConvertRequest) (hh : htmlFalsy req.html = false)
    (ht : includesPngJpeg (mergedConfig req).type = false) :
    handleConvert browser req =
      ({ status := 400, contentType := none, contentDisposition := none,
         contentLength := none,
         body := Body.json "Invalid image type. Use \"png\" or \"jpeg\"" none none },
       []) := by
  unfold handleConvert
  simp [hh, ht]

/-- Witness for the amended C3 at the gif request. -/
theorem invalid_type_fixed_message_no_surface_witness :
    handleConvert (some benign) reqGif =
      ({ status := 400, contentType := none, contentDisposition := none,
         contentLength := none,
         body := Body.json "Invalid image type. Use \"png\" or \"jpeg\"" none none },
       []) :=
  invalid_type_fixed_message_no_surface (some benign) reqGif (by decide) (by decide)

/-- C1 counterexample: with the engine handle unavailable, a valid request
still drives the handler to attempt surface creation on the absent handle
(the trace holds a newPageAttempt), and the response is the generic 500
internal-error body produced by the thrown TypeError — not an
EngineUnavailable-specific outcome. -/
theorem engineUnavailable_still_attempts_newPage :
    (handleConvert none reqDefault).2 = [Ev.newPageAttempt] ∧
    (handleConvert none reqDefault).1 =
      { status := 500, contentType := none, contentDisposition := none,
        contentLength := none,
        body := Body.json "Internal server error during conversion" none
          (some "Cannot read properties of undefined (reading newPage)") } := by
  constructor <;> rfl

/-- C1 (amended): when the engine handle is unavailable, a request that
passes validation is not answered with a distinct EngineUnavailable
failure; the handler attempts surface creation, the attempt throws, and
the catch block returns 500 with the generic internal-error body. No
surface is actually created. -/
theorem engineUnavailable_maps_to_internalError (req : ConvertRequest)
    (hh : htmlFalsy req.html = false)
    (ht : includesPngJpeg (mergedConfig req).type = true) :
    handleConvert none req =
      ({ status := 500, contentType := none, contentDisposition := none,
         contentLength := none,
         body := Body.json "Internal server error during conversion" none
           (some typeErrorNewPage.message) },
       [Ev.newPageAttempt]) ∧
    countEv (handleConvert none req).2 isNewPageOk = 0 ∧
    countEv (handleConvert none req).2 isNewPageAttempt = 1 := by
  unfold handleConvert
  simp [hh, ht, catchResponse, typeErrorNewPage, countEv, isNewPageOk, isNewPageAttempt]

/-- Witness for the amended C1 at the default example request. -/
theorem engineUnavailable_maps_to_internalError_witness :
    handleConvert none reqDefault =
      ({ status := 500, contentType := none, contentDisposition := none,
         contentLength := none,
         body := Body.json "Internal server error during conversion" none
           (some "Cannot read properties of undefined (reading newPage)") },
       [Ev.newPageAttempt]) ∧
    countEv (handleConvert none reqDefault).2 isNewPageOk = 0 ∧
    countEv (handleConvert none reqDefault).2 isNewPageAttempt = 1 :=
  engineUnavailable_maps_to_internalError reqDefault (by decide) (by decide)

/-- The inner pipeline only succeeds with the 200 success response. -/
theorem innerPipeline_ok_status (b : EngineBehavior) (cfg : RenderConfig)
    (html : String) (resp : Response)
    (h : (innerPipeline b cfg html).1 = Except.ok resp) : resp.status = 200 := by
  simp only [innerPipeline] at h
  repeat' split at h
  all_goals simp_all
  all_goals exact congrArg Response.status h.symm

/-- Once validation passes, the handler can only answer 200, 408 or 500,
never 400. -/
theorem postValidation_status (req : ConvertRequest) (b : EngineBehavior)
    (hh : htmlFalsy req.html = false)
    (ht : includesPngJpeg (mergedConfig req).type = true) :
    (handleConvert (some b) req).1.status = 200 ∨
    (handleConvert (some b) req).1.status = 408 ∨
    (handleConvert (some b) req).1.status = 500 := by
  unfold handleConvert
  simp only [hh, ht, Bool.not_true, Bool.false_eq_true, if_false]
  cases hb : b.newPageError with
  | some e =>
      rcases catchResponse_status e with h | h
      · exact Or.inr (Or.inl h)
      · exact Or.inr (Or.inr h)
  | none =>
      cases h1 : (innerPipeline b (mergedConfig req) (req.html.getD "")).1 with
      | error e =>
          simp only [h1]
          rcases catchResponse_status e with h | h
          · exact Or.inr (Or.inl h)
          · exact Or.inr (Or.inr h)
      | ok resp =>
          simp only [h1]
          exact Or.inl (innerPipeline_ok_status b (mergedConfig req) (req.html.getD "") resp h1)

/-- Once a surface was created, the trace brackets the inner pipeline trace
between the creation events and the closing event. -/
theorem handleConvert_some_trace (req : ConvertRequest) (b : EngineBehavior)
    (hh : htmlFalsy req.html = false)
    (ht : includesPngJpeg (mergedConfig req).type = true)
    (hnp : b.newPageError = none) :
    (handleConvert (some b) req).2 =
      Ev.newPageAttempt :: Ev.newPageOk ::
        ((innerPipeline b (mergedConfig req) (req.html.getD "")).2 ++ [Ev.pageClose]) := by
  unfold handleConvert
  simp only [hh, ht, Bool.not_true, Bool.false_eq_true, if_false, hnp]
  cases h1 : (innerPipeline b (mergedConfig req) (req.html.getD "")).1 <;> simp [h1]

/-- The inner pipeline always begins by configuring the viewport with the
parseInt images of the merged width and height. -/
theorem innerPipeline_trace_cons (b : EngineBehavior) (cfg : RenderConfig)
    (html : String) :
    ∃ rest, (innerPipeline b cfg html).2 =
      Ev.setViewport (jsParseInt cfg.width) (jsParseInt cfg.height) :: rest := by
  simp only [innerPipeline]
  repeat' split
  all_goals exact ⟨_, rfl⟩

/-- C2 counterexample: the request whose width is the non-numeric string abc
is not rejected — it is answered 200 — and the NaN produced by integer
coercion is propagated into the viewport-configuration call of the
rendering engine. -/
theorem nan_width_reaches_setViewport :
    (handleConvert (some benign) reqNanWidth).1.status = 200 ∧
    (handleConvert (some benign) reqNanWidth).2 =
      [Ev.newPageAttempt, Ev.newPageOk,
       Ev.setViewport JsNum.nan (JsNum.int 1080),
       Ev.setContent "<h1>x</h1>" 30000,
       Ev.waitForTimeout 1000,
       Ev.screenshot (JVal.str "png") (JVal.bool true) none,
       Ev.pageClose] := by
  constructor <;> rfl

/-- C2 (amended): the handler performs no numeric validation. Whatever the
width, height and quality fields hold — including values whose integer
coercion is NaN — a request that passes the content and type checks is
never answered 400, and the viewport call receives exactly the parseInt
images of the merged width and height, NaN included. -/
theorem numeric_fields_never_rejected (req : ConvertRequest) (b : EngineBehavior)
    (hh : htmlFalsy req.html = false)
    (ht : includesPngJpeg (mergedConfig req).type = true)
    (hnp : b.newPageError = none) :
    (handleConvert (some b) req).1.status ≠ 400 ∧
    (handleConvert (some b) req).2.take 3 =
      [Ev.newPageAttempt, Ev.newPageOk,
       Ev.setViewport (jsParseInt (req.width.getD (JVal.num 1920)))
         (jsParseInt (req.height.getD (JVal.num 1080)))] := by
  constructor
  · rcases postValidation_status req b hh ht with h | h | h <;> omega
  · rw [handleConvert_some_trace req b hh ht hnp]
    obtain ⟨rest, hr⟩ := innerPipeline_trace_cons b (mergedConfig req) (req.html.getD "")
    rw [hr]
    simp [mergedConfig]

/-- Witness for the amended C2 at the abc-width request. -/
theorem numeric_fields_never_rejected_witness :
    (handleConvert (some benign) reqNanWidth).1.status ≠ 400 ∧
    (handleConvert (some benign) reqNanWidth).2.take 3 =
      [Ev.newPageAttempt, Ev.newPageOk,
       Ev.setViewport (jsParseInt (reqNanWidth.width.getD (JVal.num 1920)))
         (jsParseInt (reqNanWidth.height.getD (JVal.num 1080)))] :=
  numeric_fields_never_rejected reqNanWidth benign (by decide) (by decide) rfl

/-- Once a surface was created, the response is the inner pipeline's success
response, or the catch-block response for the error it threw. -/
theorem handleConvert_some_resp (req : ConvertRequest) (b : EngineBehavior)
    (hh : htmlFalsy req.html = false)
    (ht : includesPngJpeg (mergedConfig req).type = true)
    (hnp : b.newPageError = none) :
    (handleConvert (some b) req).1 =
      (match (innerPipeline b (mergedConfig req) (req.html.getD "")).1 with
       | Except.ok resp => resp
       | Except.error e => catchResponse e) := by
  unfold handleConvert
  simp only [hh, ht, Bool.not_true, Bool.false_eq_true, if_false, hnp]
  cases h1 : (innerPipeline b (mergedConfig req) (req.html.getD "")).1 <;> simp [h1]

/-- Every event of the inner pipeline trace obeys the capture-quality rule of
its request. -/
theorem innerPipeline_all_qualityRule (b : EngineBehavior) (req : ConvertRequest)
    (html : String) :
    ((innerPipeline b (mergedConfig req) html).2.all (qualityRule req)) = true := by
  simp only [innerPipeline]
  repeat' split
  all_goals simp_all [qualityRule, mergedConfig]

/-- C4: in every trace the handler can produce, a capture call carries a
quality option exactly when the merged type is jpeg — and then it is the
parseInt image of the merged quality; a png capture call never carries
one. -/
theorem screenshot_quality_iff_jpeg (browser : Option EngineBehavior)
    (req : ConvertRequest) :
    ((handleConvert browser req).2.all (qualityRule req)) = true := by
  by_cases hh : htmlFalsy req.html = true
  · unfold handleConvert; simp [hh]
  · have hh' : htmlFalsy req.html = false := by simp_all
    by_cases ht : includesPngJpeg (mergedConfig req).type = true
    · cases browser with
      | none => unfold handleConvert; simp [hh', ht, qualityRule]
      | some b =>
        cases hb : b.newPageError with
        | some e => unfold handleConvert; simp [hh', ht, hb, qualityRule]
        | none =>
            rw [handleConvert_some_trace req b hh' ht hb]
            simp [qualityRule, innerPipeline_all_qualityRule b req (req.html.getD "")]
    · have ht' : includesPngJpeg (mergedConfig req).type = false := by simp_all
      unfold handleConvert
      simp [hh', ht']

/-- The inner pipeline trace never creates and never closes a surface. -/
theorem innerPipeline_counts (b : EngineBehavior) (cfg : RenderConfig)
    (html : String) :
    countEv (innerPipeline b cfg html).2 isNewPageOk = 0 ∧
    countEv (innerPipeline b cfg html).2 isPageClose = 0 := by
  simp only [innerPipeline]
  repeat' split
  all_goals simp [countEv, isNewPageOk, isPageClose]

/-- The last event of a trace ending in the closing event is that closing
event, whatever precedes it. -/
theorem getLast_close (a : Ev) (T : List Ev) :
    (a :: (T ++ [Ev.pageClose])).getLast? = some Ev.pageClose := by
  have h : a :: (T ++ [Ev.pageClose]) = (a :: T) ++ [Ev.pageClose] := by simp
  rw [h]
  exact List.getLast?_concat _

/-- C6: on every request, every engine handle state and every engine
behavior, the handler creates at most one surface, closes exactly as many
surfaces as it creates, and when one was created the final engine
interaction of the invocation is its destruction: no surface outlives its
pipeline invocation. -/
theorem surface_lifecycle_invariant (browser : Option EngineBehavior)
    (req : ConvertRequest) :
    surfaceInvariant (handleConvert browser req).2 = true := by
  by_cases hh : htmlFalsy req.html = true
  · unfold handleConvert
    simp [hh, surfaceInvariant, countEv]
  · have hh' : htmlFalsy req.html = false := by simp_all
    by_cases ht : includesPngJpeg (mergedConfig req).type = true
    · cases browser with
      | none =>
          unfold handleConvert
          simp [hh', ht, surfaceInvariant, countEv, isNewPageOk, isPageClose]
      | some b =>
        cases hb : b.newPageError with
        | some e =>
            unfold handleConvert
            simp [hh', ht, hb, surfaceInvariant, countEv, isNewPageOk, isPageClose]
        | none =>
            rw [handleConvert_some_trace req b hh' ht hb]
            obtain ⟨h0, h1⟩ := innerPipeline_counts b (mergedConfig req) (req.html.getD "")
            simp only [countEv] at h0 h1
            unfold surfaceInvariant countEv
            simp [List.filter_append, isNewPageOk, isPageClose, h0, h1,
              getLast_close]
    · have ht' : includesPngJpeg (mergedConfig req).type = false := by simp_all
      unfold handleConvert
      simp [hh', ht', surfaceInvariant, countEv]

/-- C7: whenever the content load outlasts the fixed 30000 ms bound of the
setContent call, the handler answers 408 with the structured timeout body,
that body differs from the generic 500 internal-error body whatever detail
message the latter carries, and the surface is still destroyed: the trace
ends with the closing event. -/
theorem timeout_maps_to_408_and_close (req : ConvertRequest) (b : EngineBehavior)
    (hh : htmlFalsy req.html = false)
    (ht : includesPngJpeg (mergedConfig req).type = true)
    (hnp : b.newPageError = none)
    (hvp : b.setViewportError = none)
    (hload : b.loadDuration > 30000) :
    (handleConvert (some b) req).1 =
      { status := 408, contentType := none, contentDisposition := none,
        contentLength := none,
        body := Body.json "Request timeout. HTML content took too long to load." none none } ∧
    (∀ m, (handleConvert (some b) req).1.body ≠
      Body.json "Internal server error during conversion" none m) ∧
    (handleConvert (some b) req).2 =
      [Ev.newPageAttempt, Ev.newPageOk,
       Ev.setViewport (jsParseInt (req.width.getD (JVal.num 1920)))
         (jsParseInt (req.height.getD (JVal.num 1080))),
       Ev.setContent (req.html.getD "") 30000,
       Ev.pageClose] := by
  have hsc : setContentOutcome 30000 b = some timeoutError := by
    unfold setContentOutcome
    simp [hload]
  have hinner : (innerPipeline b (mergedConfig req) (req.html.getD "")).1 =
      Except.error timeoutError := by
    unfold innerPipeline
    simp [hvp, hsc]
  have hresp : (handleConvert (some b) req).1 =
      { status := 408, contentType := none, contentDisposition := none,
        contentLength := none,
        body := Body.json "Request timeout. HTML content took too long to load." none none } := by
    rw [handleConvert_some_resp req b hh ht hnp, hinner]
    rfl
  refine ⟨hresp, ?_, ?_⟩
  · intro m h
    rw [hresp] at h
    have hs : "Request timeout. HTML content took too long to load." ≠
        "Internal server error during conversion" := by decide
    simp [Body.json.injEq, hs] at h
  · have htrace : (innerPipeline b (mergedConfig req) (req.html.getD "")).2 =
        [Ev.setViewport (jsParseInt (req.width.getD (JVal.num 1920)))
           (jsParseInt (req.height.getD (JVal.num 1080))),
         Ev.setContent (req.html.getD "") 30000] := by
      unfold innerPipeline
      simp [hvp, hsc, mergedConfig]
    rw [handleConvert_some_trace req b hh ht hnp, htrace]
    rfl

/-- Witness for C7 at the default request and an engine whose load takes
30001 ms. -/
theorem timeout_maps_to_408_and_close_witness :
    (handleConvert (some slowLoad) reqDefault).1 =
      { status := 408, contentType := none, contentDisposition := none,
        contentLength := none,
        body := Body.json "Request timeout. HTML content took too long to load." none none } ∧
    (∀ m, (handleConvert (some slowLoad) reqDefault).1.body ≠
      Body.json "Internal server error during conversion" none m) ∧
    (handleConvert (some slowLoad) reqDefault).2 =
      [Ev.newPageAttempt, Ev.newPageOk,
       Ev.setViewport (jsParseInt (reqDefault.width.getD (JVal.num 1920)))
         (jsParseInt (reqDefault.height.getD (JVal.num 1080))),
       Ev.setContent (reqDefault.html.getD "") 30000,
       Ev.pageClose] :=
  timeout_maps_to_408_and_close reqDefault slowLoad (by decide) (by decide) rfl rfl
    (by decide)

/-- C8: on any request that passes validation and any engine that answers
every call, the full engine trace consumes, call by call, exactly the
merged configuration: each absent option field enters the engine calls as
its documented default (width 1920, height 1080, fullPage true, quality
100, type png) and each caller-supplied field enters as the supplied
value. -/
theorem defaults_merge_drives_pipeline (req : ConvertRequest) (b : EngineBehavior)
    (hh : htmlFalsy req.html = false)
    (ht : includesPngJpeg (mergedConfig req).type = true)
    (hnp : b.newPageError = none)
    (hvp : b.setViewportError = none)
    (hld : b.loadDuration ≤ 30000)
    (hle : b.loadError = none)
    (hw : b.waitError = none)
    (hs : b.screenshotError = none) :
    (handleConvert (some b) req).2 =
      [Ev.newPageAttempt, Ev.newPageOk,
       Ev.setViewport (jsParseInt (req.width.getD (JVal.num 1920)))
         (jsParseInt (req.height.getD (JVal.num 1080))),
       Ev.setContent (req.html.getD "") 30000,
       Ev.waitForTimeout 1000,
       Ev.screenshot (req.type.getD (JVal.str "png")) (req.fullPage.getD (JVal.bool true))
         (if req.type.getD (JVal.str "png") = JVal.str "jpeg" then
            some (jsParseInt (req.quality.getD (JVal.num 100))) else none),
       Ev.pageClose] := by
  have hsc : setContentOutcome 30000 b = none := by
    unfold setContentOutcome
    simp [Nat.not_lt.mpr hld, hle]
  have htrace : (innerPipeline b (mergedConfig req) (req.html.getD "")).2 =
      [Ev.setViewport (jsParseInt (req.width.getD (JVal.num 1920)))
         (jsParseInt (req.height.getD (JVal.num 1080))),
       Ev.setContent (req.html.getD "") 30000,
       Ev.waitForTimeout 1000,
       Ev.screenshot (req.type.getD (JVal.str "png")) (req.fullPage.getD (JVal.bool true))
         (if req.type.getD (JVal.str "png") = JVal.str "jpeg" then
            some (jsParseInt (req.quality.getD (JVal.num 100))) else none)] := by
    unfold innerPipeline
    simp only [hvp, hsc, hw, hs, mergedConfig]
    split <;> simp
  rw [handleConvert_some_trace req b hh ht hnp, htrace]
  rfl

/-- Witness for C8 at the default request against the benign engine. -/
theorem defaults_merge_drives_pipeline_witness :
    (handleConvert (some benign) reqDefault).2 =
      [Ev.newPageAttempt, Ev.newPageOk,
       Ev.setViewport (jsParseInt (reqDefault.width.getD (JVal.num 1920)))
         (jsParseInt (reqDefault.height.getD (JVal.num 1080))),
       Ev.setContent (reqDefault.html.getD "") 30000,
       Ev.waitForTimeout 1000,
       Ev.screenshot (reqDefault.type.getD (JVal.str "png"))
         (reqDefault.fullPage.getD (JVal.bool true))
         (if reqDefault.type.getD (JVal.str "png") = JVal.str "jpeg" then
            some (jsParseInt (reqDefault.quality.getD (JVal.num 100))) else none),
       Ev.pageClose] :=
  defaults_merge_drives_pipeline reqDefault benign (by decide) (by decide) rfl rfl
    (by decide) rfl rfl rfl

/-- When every engine call succeeds, the inner pipeline returns the success
response built from the capture bytes and the merged type. -/
theorem innerPipeline_ok (b : EngineBehavior) (cfg : RenderConfig) (html : String)
    (hvp : b.setViewportError = none) (hsc : setContentOutcome 30000 b = none)
    (hw : b.waitError = none) (hs : b.screenshotError = none) :
    (innerPipeline b cfg html).1 =
      Except.ok
        { status := 200,
          contentType :=
            some (if cfg.type = JVal.str "png" then "image/png" else "image/jpeg"),
          contentDisposition :=
            some ("attachment; filename=\"" ++ ("converted." ++ jvalTemplate cfg.type) ++ "\""),
          contentLength := some b.screenshotBytes.length,
          body := Body.bytes b.screenshotBytes } := by
  unfold innerPipeline
  simp only [hvp, hsc, hw, hs]

/-- When every engine call succeeds, the inner pipeline trace is viewport,
content load, settling wait, capture, in that order. -/
theorem innerPipeline_trace_ok (b : EngineBehavior) (cfg : RenderConfig)
    (html : String)
    (hvp : b.setViewportError = none) (hsc : setContentOutcome 30000 b = none)
    (hw : b.waitError = none) (hs : b.screenshotError = none) :
    (innerPipeline b cfg html).2 =
      [Ev.setViewport (jsParseInt cfg.width) (jsParseInt cfg.height),
       Ev.setContent html 30000,
       Ev.waitForTimeout 1000,
       Ev.screenshot cfg.type cfg.fullPage
         (if cfg.type = JVal.str "jpeg" then some (jsParseInt cfg.quality) else none)] := by
  unfold innerPipeline
  simp only [hvp, hsc, hw, hs]
  split <;> simp

/-- C9: every successful conversion is answered 200, the body is exactly the
captured bytes, the length header is exactly the byte count of that body,
the content type is image/png for type png and image/jpeg for type jpeg,
and the filename header is converted.<type>. -/
theorem success_response_headers (req : ConvertRequest) (b : EngineBehavior)
    (hh : htmlFalsy req.html = false)
    (ht : includesPngJpeg (mergedConfig req).type = true)
    (hnp : b.newPageError = none)
    (hvp : b.setViewportError = none)
    (hld : b.loadDuration ≤ 30000)
    (hle : b.loadError = none)
    (hw : b.waitError = none)
    (hs : b.screenshotError = none) :
    (handleConvert (some b) req).1.status = 200 ∧
    (handleConvert (some b) req).1.body = Body.bytes b.screenshotBytes ∧
    (handleConvert (some b) req).1.contentLength = some b.screenshotBytes.length ∧
    ((mergedConfig req).type = JVal.str "png" →
      (handleConvert (some b) req).1.contentType = some "image/png") ∧
    ((mergedConfig req).type = JVal.str "jpeg" →
      (handleConvert (some b) req).1.contentType = some "image/jpeg") ∧
    (handleConvert (some b) req).1.contentDisposition =
      some ("attachment; filename=\"" ++ ("converted." ++ jvalTemplate (mergedConfig req).type) ++ "\"") := by
  have hsc : setContentOutcome 30000 b = none := by
    unfold setContentOutcome
    simp [Nat.not_lt.mpr hld, hle]
  rw [handleConvert_some_resp req b hh ht hnp,
    innerPipeline_ok b (mergedConfig req) (req.html.getD "") hvp hsc hw hs]
  refine ⟨rfl, rfl, rfl, ?_, ?_, rfl⟩
  · intro hpng
    simp [hpng]
  · intro hjpeg
    rw [hjpeg]
    simp

/-- Witness for C9 at the default request against the benign engine. -/
theorem success_response_headers_witness :
    (handleConvert (some benign) reqDefault).1.status = 200 ∧
    (handleConvert (some benign) reqDefault).1.body = Body.bytes benign.screenshotBytes ∧
    (handleConvert (some benign) reqDefault).1.contentLength =
      some benign.screenshotBytes.length ∧
    ((mergedConfig reqDefault).type = JVal.str "png" →
      (handleConvert (some benign) reqDefault).1.contentType = some "image/png") ∧
    ((mergedConfig reqDefault).type = JVal.str "jpeg" →
      (handleConvert (some benign) reqDefault).1.contentType = some "image/jpeg") ∧
    (handleConvert (some benign) reqDefault).1.contentDisposition =
      some ("attachment; filename=\"" ++ ("converted." ++ jvalTemplate (mergedConfig reqDefault).type) ++ "\"") :=
  success_response_headers reqDefault benign (by decide) (by decide) rfl rfl
    (by decide) rfl rfl rfl

/-- C10: a jpeg request carrying any integer quality — below 0 or above 100
included — is never rejected for it: against an engine that answers every
call the response is 200, and the capture call receives exactly that
integer as its quality option. -/
theorem jpeg_quality_unvalidated_passthrough (q : Int) (req : ConvertRequest)
    (b : EngineBehavior)
    (hh : htmlFalsy req.html = false)
    (htype : req.type = some (JVal.str "jpeg"))
    (hq : req.quality = some (JVal.num q))
    (hnp : b.newPageError = none)
    (hvp : b.setViewportError = none)
    (hld : b.loadDuration ≤ 30000)
    (hle : b.loadError = none)
    (hw : b.waitError = none)
    (hs : b.screenshotError = none) :
    (handleConvert (some b) req).1.status = 200 ∧
    Ev.screenshot (JVal.str "jpeg") (req.fullPage.getD (JVal.bool true))
        (some (JsNum.int q)) ∈ (handleConvert (some b) req).2 := by
  have ht : includesPngJpeg (mergedConfig req).type = true := by
    simp [includesPngJpeg, mergedConfig, htype]
  have hsc : setContentOutcome 30000 b = none := by
    unfold setContentOutcome
    simp [Nat.not_lt.mpr hld, hle]
  constructor
  · rw [handleConvert_some_resp req b hh ht hnp,
      innerPipeline_ok b (mergedConfig req) (req.html.getD "") hvp hsc hw hs]
  · rw [handleConvert_some_trace req b hh ht hnp,
      innerPipeline_trace_ok b (mergedConfig req) (req.html.getD "") hvp hsc hw hs]
    simp [mergedConfig, htype, hq, jsParseInt]

/-- Witness for C10 at a jpeg request with the out-of-range quality 9999. -/
theorem jpeg_quality_unvalidated_passthrough_witness :
    (handleConvert (some benign) reqJpegQ).1.status = 200 ∧
    Ev.screenshot (JVal.str "jpeg") (reqJpegQ.fullPage.getD (JVal.bool true))
        (some (JsNum.int 9999)) ∈ (handleConvert (some benign) reqJpegQ).2 :=
  jpeg_quality_unvalidated_passthrough 9999 reqJpegQ benign (by decide) rfl rfl
    rfl rfl (by decide) rfl rfl rfl
